import Mathlib

/-!
Verification of the carbon-footprint calculator (`src/main.py`).

The emissions engine (`CarbonCalculator.calculate_footprint`) and the
advice selector (`generate_advice`) are shallowly embedded over `ℚ`:
the Python formulas involve only decimal literals, `+`, `-`, `*`, `/`,
so exact rational arithmetic captures their intended semantics.
-/

namespace CarbonEmission

/-- The validated input record gathered by `calculate_footprint`
(one field per `get_input` call, in source order). -/
structure InputRecord where
  electricity_bill : ℚ
  gas_bill : ℚ
  fuel_bill : ℚ
  waste_kg : ℚ
  recycle_percent : ℚ
  km_year : ℚ
  fuel_efficiency : ℚ
deriving DecidableEq

/-- The dictionary returned by `calculate_footprint`. -/
structure Breakdown where
  energy_co2 : ℚ
  waste_co2 : ℚ
  travel_co2 : ℚ
  total_co2 : ℚ
deriving DecidableEq

/-- `self.electricity_factor` from `CarbonCalculator.__init__`. -/
def electricity_factor : ℚ := 0.0005

/-- `self.gas_factor` from `CarbonCalculator.__init__`. -/
def gas_factor : ℚ := 0.0053

/-- `self.fuel_factor` from `CarbonCalculator.__init__`. -/
def fuel_factor : ℚ := 2.32

/-- `self.waste_factor` from `CarbonCalculator.__init__`. -/
def waste_factor : ℚ := 0.57

/-- `self.travel_factor` from `CarbonCalculator.__init__`. -/
def travel_factor : ℚ := 2.31

/-- The arithmetic part of `CarbonCalculator.calculate_footprint`
(lines 46-57 of `src/main.py`), applied to an already-gathered record. -/
def calculate_footprint (r : InputRecord) : Breakdown :=
  let energy_co2 :=
    (r.electricity_bill * electricity_factor + r.gas_bill * gas_factor +
      r.fuel_bill * fuel_factor) * 12
  let waste_co2 := r.waste_kg * (waste_factor - r.recycle_percent / 100) * 12
  let travel_co2 := r.km_year / 100 * r.fuel_efficiency * travel_factor
  { energy_co2 := energy_co2
    waste_co2 := waste_co2
    travel_co2 := travel_co2
    total_co2 := energy_co2 + waste_co2 + travel_co2 }

/-- The three strings appended when `energy_co2` strictly dominates. -/
def energyRecs : List String :=
  ["1. Reduce energy consumption by implementing energy-efficient practices and using renewable energy sources.",
   "2. Encourage the use of energy-saving devices and appliances.",
   "3. Conduct energy audits to identify areas for improvement."]

/-- The three strings appended when `waste_co2` strictly dominates. -/
def wasteRecs : List String :=
  ["1. Implement a comprehensive recycling program to reduce waste production.",
   "2. Educate employees about waste reduction and proper recycling techniques.",
   "3. Explore opportunities to compost organic waste."]

/-- The three strings appended when `travel_co2` strictly dominates. -/
def travelRecs : List String :=
  ["1. Promote remote work and virtual meetings to reduce business travel.",
   "2. Encourage the use of public transportation, carpooling, and biking.",
   "3. Invest in fuel-efficient or electric vehicles for business travel."]

/-- The two fallback strings appended when no branch fired. -/
def fallbackRecs : List String :=
  ["1. Continue to monitor and optimize energy usage, waste production, and business travel.",
   "2. Engage employees in sustainability initiatives and create a culture of environmental responsibility."]

/-- `generate_advice` (lines 137-160 of `src/main.py`): three independent
`if` statements append category recommendations to a list, the fallback
fills an empty list, and the result is joined with newlines. -/
def generate_advice (d : Breakdown) : String :=
  let advice : List String :=
    (if d.energy_co2 > d.waste_co2 ∧ d.energy_co2 > d.travel_co2 then
      energyRecs else []) ++
    (if d.waste_co2 > d.energy_co2 ∧ d.waste_co2 > d.travel_co2 then
      wasteRecs else []) ++
    (if d.travel_co2 > d.energy_co2 ∧ d.travel_co2 > d.waste_co2 then
      travelRecs else [])
  String.intercalate "\n" (if advice = [] then fallbackRecs else advice)

end CarbonEmission

namespace CarbonEmission

/-- C1: for every input record with all fields non-negative, the computation
returns `energyCO2 = (electricityBill*0.0005 + gasBill*0.0053 + fuelBill*2.32) * 12`,
`wasteCO2 = wasteKg * (0.57 - recyclePercent/100) * 12`,
`travelCO2 = (travelKmPerYear/100) * fuelEfficiencyLPer100Km * 2.31`, and
`totalCO2` equal to the exact sum of the three. -/
theorem calculate_footprint_formulas (r : InputRecord)
    (he : 0 ≤ r.electricity_bill) (hg : 0 ≤ r.gas_bill) (hf : 0 ≤ r.fuel_bill)
    (hw : 0 ≤ r.waste_kg) (hp : 0 ≤ r.recycle_percent) (hk : 0 ≤ r.km_year)
    (hq : 0 ≤ r.fuel_efficiency) :
    (calculate_footprint r).energy_co2 =
      (r.electricity_bill * 0.0005 + r.gas_bill * 0.0053 + r.fuel_bill * 2.32) * 12 ∧
    (calculate_footprint r).waste_co2 =
      r.waste_kg * (0.57 - r.recycle_percent / 100) * 12 ∧
    (calculate_footprint r).travel_co2 =
      r.km_year / 100 * r.fuel_efficiency * 2.31 ∧
    (calculate_footprint r).total_co2 =
      (calculate_footprint r).energy_co2 + (calculate_footprint r).waste_co2 +
        (calculate_footprint r).travel_co2 :=
  ⟨rfl, rfl, rfl, rfl⟩

/-- Witness for C1 at a concrete non-negative record. -/
theorem calculate_footprint_formulas_witness :
    (calculate_footprint ⟨1, 2, 3, 4, 5, 6, 7⟩).total_co2 =
      (calculate_footprint ⟨1, 2, 3, 4, 5, 6, 7⟩).energy_co2 +
        (calculate_footprint ⟨1, 2, 3, 4, 5, 6, 7⟩).waste_co2 +
        (calculate_footprint ⟨1, 2, 3, 4, 5, 6, 7⟩).travel_co2 :=
  (calculate_footprint_formulas ⟨1, 2, 3, 4, 5, 6, 7⟩ (by norm_num) (by norm_num)
    (by norm_num) (by norm_num) (by norm_num) (by norm_num) (by norm_num)).2.2.2

/-- C2: when no single category is strictly greater than both of the other
two, `generate_advice` returns exactly the generic fallback advice (the two
fixed recommendation strings, newline-joined), never category-focused advice. -/
theorem generate_advice_tie_fallback (d : Breakdown)
    (h1 : ¬(d.energy_co2 > d.waste_co2 ∧ d.energy_co2 > d.travel_co2))
    (h2 : ¬(d.waste_co2 > d.energy_co2 ∧ d.waste_co2 > d.travel_co2))
    (h3 : ¬(d.travel_co2 > d.energy_co2 ∧ d.travel_co2 > d.waste_co2)) :
    generate_advice d = String.intercalate "\n" fallbackRecs := by
  rw [generate_advice]
  simp [h1, h2, h3]

/-- Witness for C2 at the all-equal, all-positive breakdown. -/
theorem generate_advice_tie_fallback_witness :
    generate_advice ⟨1, 1, 1, 3⟩ = String.intercalate "\n" fallbackRecs :=
  generate_advice_tie_fallback ⟨1, 1, 1, 3⟩ (by norm_num) (by norm_num) (by norm_num)

/-- C3: a category that is strictly greater than both others by pairwise
comparison yields exactly that category's three fixed recommendation strings
newline-joined in order; no two dominance conditions can hold at once, and
when none holds the fallback branch fires, so the four branches are mutually
exclusive and the output never mixes two category blocks. -/
theorem generate_advice_dominant_branches (d : Breakdown) :
    (d.energy_co2 > d.waste_co2 ∧ d.energy_co2 > d.travel_co2 →
      generate_advice d = String.intercalate "\n" energyRecs) ∧
    (d.waste_co2 > d.energy_co2 ∧ d.waste_co2 > d.travel_co2 →
      generate_advice d = String.intercalate "\n" wasteRecs) ∧
    (d.travel_co2 > d.energy_co2 ∧ d.travel_co2 > d.waste_co2 →
      generate_advice d = String.intercalate "\n" travelRecs) ∧
    ¬((d.energy_co2 > d.waste_co2 ∧ d.energy_co2 > d.travel_co2) ∧
      (d.waste_co2 > d.energy_co2 ∧ d.waste_co2 > d.travel_co2)) ∧
    ¬((d.energy_co2 > d.waste_co2 ∧ d.energy_co2 > d.travel_co2) ∧
      (d.travel_co2 > d.energy_co2 ∧ d.travel_co2 > d.waste_co2)) ∧
    ¬((d.waste_co2 > d.energy_co2 ∧ d.waste_co2 > d.travel_co2) ∧
      (d.travel_co2 > d.energy_co2 ∧ d.travel_co2 > d.waste_co2)) ∧
    (¬(d.energy_co2 > d.waste_co2 ∧ d.energy_co2 > d.travel_co2) →
     ¬(d.waste_co2 > d.energy_co2 ∧ d.waste_co2 > d.travel_co2) →
     ¬(d.travel_co2 > d.energy_co2 ∧ d.travel_co2 > d.waste_co2) →
      generate_advice d = String.intercalate "\n" fallbackRecs) := by
  refine ⟨?_, ?_, ?_, ?_, ?_, ?_, ?_⟩
  · intro h
    have h2 : ¬(d.waste_co2 > d.energy_co2 ∧ d.waste_co2 > d.travel_co2) := by
      rintro ⟨hw, -⟩; exact absurd h.1 (not_lt.mpr hw.le)
    have h3 : ¬(d.travel_co2 > d.energy_co2 ∧ d.travel_co2 > d.waste_co2) := by
      rintro ⟨ht, -⟩; exact absurd h.2 (not_lt.mpr ht.le)
    rw [generate_advice]
    simp [h, h2, h3, energyRecs]
  · intro h
    have h1 : ¬(d.energy_co2 > d.waste_co2 ∧ d.energy_co2 > d.travel_co2) := by
      rintro ⟨he, -⟩; exact absurd h.1 (not_lt.mpr he.le)
    have h3 : ¬(d.travel_co2 > d.energy_co2 ∧ d.travel_co2 > d.waste_co2) := by
      rintro ⟨-, ht⟩; exact absurd h.2 (not_lt.mpr ht.le)
    rw [generate_advice]
    simp [h, h1, h3, wasteRecs]
  · intro h
    have h1 : ¬(d.energy_co2 > d.waste_co2 ∧ d.energy_co2 > d.travel_co2) := by
      rintro ⟨-, he⟩; exact absurd h.1 (not_lt.mpr he.le)
    have h2 : ¬(d.waste_co2 > d.energy_co2 ∧ d.waste_co2 > d.travel_co2) := by
      rintro ⟨-, hw⟩; exact absurd h.2 (not_lt.mpr hw.le)
    rw [generate_advice]
    simp [h, h1, h2, travelRecs]
  · rintro ⟨⟨he, -⟩, ⟨hw, -⟩⟩; exact absurd he (not_lt.mpr hw.le)
  · rintro ⟨⟨-, he⟩, ⟨ht, -⟩⟩; exact absurd he (not_lt.mpr ht.le)
  · rintro ⟨⟨-, hw⟩, ⟨-, ht⟩⟩; exact absurd hw (not_lt.mpr ht.le)
  · intro h1 h2 h3
    rw [generate_advice]
    simp [h1, h2, h3]

/-- Witness for C3: energy strictly dominant selects the energy block. -/
theorem generate_advice_dominant_branches_witness :
    generate_advice ⟨3, 1, 2, 6⟩ = String.intercalate "\n" energyRecs :=
  (generate_advice_dominant_branches ⟨3, 1, 2, 6⟩).1 ⟨by norm_num, by norm_num⟩

/-- C4: the concrete scenario electricityBill=100, gasBill=50, fuelBill=0,
wasteKg=200, recyclePercent=50, travelKmPerYear=10000,
fuelEfficiencyLPer100Km=8 yields the exact breakdown
(3.78, 168, 1848, 2019.78) and the travel-focused advice. -/
theorem concrete_scenario_travel_dominant :
    calculate_footprint ⟨100, 50, 0, 200, 50, 10000, 8⟩ =
      ⟨3.78, 168, 1848, 2019.78⟩ ∧
    generate_advice (calculate_footprint ⟨100, 50, 0, 200, 50, 10000, 8⟩) =
      String.intercalate "\n" travelRecs := by
  have h : calculate_footprint ⟨100, 50, 0, 200, 50, 10000, 8⟩ =
      ⟨3.78, 168, 1848, 2019.78⟩ := by
    simp only [calculate_footprint, electricity_factor, gas_factor, fuel_factor,
      waste_factor, travel_factor, Breakdown.mk.injEq]
    norm_num
  refine ⟨h, ?_⟩
  rw [h, generate_advice]
  norm_num [travelRecs]
  simp

/-- C5: with `recyclePercent = 100 * waste_factor = 57`, `wasteCO2` is exactly
zero for any non-negative `wasteKg`, whatever the other fields are. -/
theorem waste_co2_zero_at_full_offset (r : InputRecord)
    (hw : 0 ≤ r.waste_kg) (h57 : r.recycle_percent = 100 * waste_factor) :
    (calculate_footprint r).waste_co2 = 0 := by
  simp only [calculate_footprint, waste_factor, h57]
  ring

/-- Witness for C5 at a concrete record with recyclePercent = 57. -/
theorem waste_co2_zero_at_full_offset_witness :
    (calculate_footprint ⟨8, 9, 10, 5, 57, 11, 12⟩).waste_co2 = 0 :=
  waste_co2_zero_at_full_offset ⟨8, 9, 10, 5, 57, 11, 12⟩ (by norm_num)
    (by norm_num [waste_factor])

/-- C6: some all-non-negative record with recyclePercent above
`100 * waste_factor` produces a strictly negative `wasteCO2`, and the
breakdown is still well formed (total is the exact sum of the three). -/
theorem negative_waste_co2_reachable :
    ∃ r : InputRecord,
      0 ≤ r.electricity_bill ∧ 0 ≤ r.gas_bill ∧ 0 ≤ r.fuel_bill ∧
      0 ≤ r.waste_kg ∧ 0 ≤ r.recycle_percent ∧ 0 ≤ r.km_year ∧
      0 ≤ r.fuel_efficiency ∧ 100 * waste_factor < r.recycle_percent ∧
      (calculate_footprint r).waste_co2 < 0 ∧
      (calculate_footprint r).total_co2 =
        (calculate_footprint r).energy_co2 + (calculate_footprint r).waste_co2 +
          (calculate_footprint r).travel_co2 := by
  refine ⟨⟨0, 0, 0, 1, 100, 0, 0⟩, ?_⟩
  simp only [calculate_footprint, waste_factor]
  norm_num

/-- C7 counterexample: scaling only `electricity_bill` by k = 2 in the record
(1, 1, 0, 0, 0, 0, 0) does not scale `energy_co2` by 2 (the gas term is
unscaled), refuting per-category linearity in a single bill field. -/
theorem scaling_single_bill_field_counterexample :
    ¬((calculate_footprint ⟨2 * 1, 1, 0, 0, 0, 0, 0⟩).energy_co2 =
      2 * (calculate_footprint ⟨1, 1, 0, 0, 0, 0, 0⟩).energy_co2) := by
  simp only [calculate_footprint, electricity_factor, gas_factor, fuel_factor]
  norm_num

/-- C7 amended: scaling wasteKg, travelKmPerYear or fuelEfficiencyLPer100Km
by k scales the corresponding category by k; scaling a single bill field by k
adds `(k-1)` times that field's own term to `energy_co2` (so `energy_co2`
scales by k only when the other two bills are zero). -/
theorem scaling_per_field_linearity (r : InputRecord) (k : ℚ) (hk : 0 < k) :
    (calculate_footprint { r with waste_kg := k * r.waste_kg }).waste_co2 =
      k * (calculate_footprint r).waste_co2 ∧
    (calculate_footprint { r with km_year := k * r.km_year }).travel_co2 =
      k * (calculate_footprint r).travel_co2 ∧
    (calculate_footprint { r with fuel_efficiency := k * r.fuel_efficiency }).travel_co2 =
      k * (calculate_footprint r).travel_co2 ∧
    (calculate_footprint { r with electricity_bill := k * r.electricity_bill }).energy_co2 =
      (calculate_footprint r).energy_co2 +
        (k - 1) * (r.electricity_bill * electricity_factor * 12) ∧
    (calculate_footprint { r with gas_bill := k * r.gas_bill }).energy_co2 =
      (calculate_footprint r).energy_co2 + (k - 1) * (r.gas_bill * gas_factor * 12) ∧
    (calculate_footprint { r with fuel_bill := k * r.fuel_bill }).energy_co2 =
      (calculate_footprint r).energy_co2 + (k - 1) * (r.fuel_bill * fuel_factor * 12) ∧
    (r.gas_bill = 0 → r.fuel_bill = 0 →
      (calculate_footprint { r with electricity_bill := k * r.electricity_bill }).energy_co2 =
        k * (calculate_footprint r).energy_co2) := by
  obtain ⟨e, g, f, w, p, m, q⟩ := r
  refine ⟨?_, ?_, ?_, ?_, ?_, ?_, ?_⟩
  · simp only [calculate_footprint]; ring
  · simp only [calculate_footprint]; ring
  · simp only [calculate_footprint]; ring
  · simp only [calculate_footprint]; ring
  · simp only [calculate_footprint]; ring
  · simp only [calculate_footprint]; ring
  · intro hg hf
    simp only at hg hf
    subst hg hf
    simp only [calculate_footprint]
    ring

/-- Witness for C7 amended: doubling wasteKg doubles wasteCO2. -/
theorem scaling_per_field_linearity_witness :
    (calculate_footprint ⟨1, 1, 1, 2 * 1, 1, 1, 1⟩).waste_co2 =
      2 * (calculate_footprint ⟨1, 1, 1, 1, 1, 1, 1⟩).waste_co2 :=
  (scaling_per_field_linearity ⟨1, 1, 1, 1, 1, 1, 1⟩ 2 (by norm_num)).1

/-- C8: the all-zero input record produces the all-zero breakdown. -/
theorem all_zero_record_all_zero_breakdown :
    calculate_footprint ⟨0, 0, 0, 0, 0, 0, 0⟩ = ⟨0, 0, 0, 0⟩ := by
  simp only [calculate_footprint, Breakdown.mk.injEq]
  norm_num

/-- C9: for every breakdown, the advice is the newline-join of one of the
four fixed recommendation lists (three of length 3, fallback of length 2),
hence nonempty with 2 or 3 numbered recommendations. -/
theorem generate_advice_one_of_four (d : Breakdown) :
    ∃ l : List String,
      (l = energyRecs ∨ l = wasteRecs ∨ l = travelRecs ∨ l = fallbackRecs) ∧
      generate_advice d = String.intercalate "\n" l ∧
      (l.length = 2 ∨ l.length = 3) ∧
      generate_advice d ≠ "" := by
  by_cases h1 : d.energy_co2 > d.waste_co2 ∧ d.energy_co2 > d.travel_co2
  · have h2 : ¬(d.waste_co2 > d.energy_co2 ∧ d.waste_co2 > d.travel_co2) := by
      rintro ⟨hw, -⟩; exact absurd h1.1 (not_lt.mpr hw.le)
    have h3 : ¬(d.travel_co2 > d.energy_co2 ∧ d.travel_co2 > d.waste_co2) := by
      rintro ⟨ht, -⟩; exact absurd h1.2 (not_lt.mpr ht.le)
    have he : generate_advice d = String.intercalate "\n" energyRecs := by
      rw [generate_advice]; simp [h1, h2, h3, energyRecs]
    exact ⟨energyRecs, Or.inl rfl, he, Or.inr (by simp [energyRecs]),
      by rw [he]; decide⟩
  · by_cases h2 : d.waste_co2 > d.energy_co2 ∧ d.waste_co2 > d.travel_co2
    · have h3 : ¬(d.travel_co2 > d.energy_co2 ∧ d.travel_co2 > d.waste_co2) := by
        rintro ⟨-, ht⟩; exact absurd h2.2 (not_lt.mpr ht.le)
      have hw : generate_advice d = String.intercalate "\n" wasteRecs := by
        rw [generate_advice]; simp [h1, h2, h3, wasteRecs]
      exact ⟨wasteRecs, Or.inr (Or.inl rfl), hw, Or.inr (by simp [wasteRecs]),
        by rw [hw]; decide⟩
    · by_cases h3 : d.travel_co2 > d.energy_co2 ∧ d.travel_co2 > d.waste_co2
      · have ht : generate_advice d = String.intercalate "\n" travelRecs := by
          rw [generate_advice]; simp [h1, h2, h3, travelRecs]
        exact ⟨travelRecs, Or.inr (Or.inr (Or.inl rfl)), ht,
          Or.inr (by simp [travelRecs]), by rw [ht]; decide⟩
      · have hf : generate_advice d = String.intercalate "\n" fallbackRecs := by
          rw [generate_advice]; simp [h1, h2, h3]
        exact ⟨fallbackRecs, Or.inr (Or.inr (Or.inr rfl)), hf,
          Or.inl (by simp [fallbackRecs]), by rw [hf]; decide⟩

/-- C10: the advice depends only on the three category components; two
breakdowns agreeing on them get identical advice whatever their totals. -/
theorem generate_advice_ignores_total (d1 d2 : Breakdown)
    (he : d1.energy_co2 = d2.energy_co2) (hw : d1.waste_co2 = d2.waste_co2)
    (ht : d1.travel_co2 = d2.travel_co2) :
    generate_advice d1 = generate_advice d2 := by
  cases d1
  cases d2
  simp_all [generate_advice]

/-- Witness for C10: same categories, different totals, same advice. -/
theorem generate_advice_ignores_total_witness :
    generate_advice ⟨1, 2, 3, 6⟩ = generate_advice ⟨1, 2, 3, 0⟩ :=
  generate_advice_ignores_total ⟨1, 2, 3, 6⟩ ⟨1, 2, 3, 0⟩ rfl rfl rfl

end CarbonEmission
